import Mathlib

/-!
Verification development for the autosit reconciliation agent
(src/autosit.py).  The Python program is shallowly embedded: pure
string/address manipulation becomes Lean functions, the external world
(DNS-over-HTTPS service, filesystem, OS command sink) becomes an explicit
oracle record, and one invocation of the program becomes a function from
the arguments and the oracle to a trace of issued commands plus a terminal
outcome.  Uncaught Python exceptions are modelled as error values of an
explicit error type.
-/

deriving instance DecidableEq for Except

namespace Autosit

/-! ## IPv4 addresses and the strict Python parser

Python represents addresses with ipaddress.IPv4Address.  Construction from
a string first rejects any string containing a slash, then splits on the
dot character, requires exactly four octets, and parses each octet with the
strict rules of ipaddress._parse_octet: nonempty, at most three characters,
ASCII digits only, no leading zero (unless the octet is exactly "0"), and
value at most 255.  No whitespace of any kind is stripped.
-/

structure IPv4 where
  o1 : Nat
  o2 : Nat
  o3 : Nat
  o4 : Nat
deriving DecidableEq, Repr

/-- Rendering of an IPv4 address, as Python str(IPv4Address): canonical
dotted quad with no leading zeros. -/
def ipv4Str (ip : IPv4) : String :=
  toString ip.o1 ++ "." ++ toString ip.o2 ++ "." ++ toString ip.o3 ++ "." ++ toString ip.o4

/-- Split a character list on the dot character, exactly as the Python
string method split with separator dot: empty components are kept, and the
empty string yields one empty component. -/
def splitOnDot : List Char → List (List Char)
  | [] => [[]]
  | c :: cs =>
    if c = '.' then [] :: splitOnDot cs
    else
      match splitOnDot cs with
      | [] => [[c]]
      | p :: ps => (c :: p) :: ps

/-- One octet, as ipaddress._parse_octet: nonempty, at most 3 chars, all
ASCII decimal digits, no leading zero unless the octet is exactly "0",
value at most 255. -/
def parseOctet (cs : List Char) : Option Nat :=
  if cs.length = 0 then none
  else if ¬ cs.all Char.isDigit then none
  else if cs.length > 3 then none
  else if cs.length > 1 ∧ cs.head? = some '0' then none
  else
    let v := cs.foldl (fun a c => a * 10 + (c.toNat - 48)) 0
    if v ≤ 255 then some v else none

/-- ipaddress.IPv4Address applied to a character list: reject slashes,
split on dots, require exactly four octets, parse each strictly.  A parse
failure models the AddressValueError the Python constructor raises. -/
def parseIPv4Chars (cs : List Char) : Option IPv4 :=
  if cs.contains '/' then none
  else
    match splitOnDot cs with
    | [a, b, c, d] =>
      match parseOctet a, parseOctet b, parseOctet c, parseOctet d with
      | some x, some y, some z, some w => some ⟨x, y, z, w⟩
      | _, _, _, _ => none
    | _ => none

/-- ipaddress.IPv4Address applied to a string. -/
def parseIPv4Str (s : String) : Option IPv4 :=
  parseIPv4Chars s.data

/-! ## The tunnel state store (src/autosit.py lines 31-33 and 42-45) -/

/-- The state file path, derived deterministically from the tunnel name
(the f-string in the Python source). -/
def statePath (tun_name : String) : String :=
  "/tmp/autosit_" ++ tun_name

/-- save_tunnel_addrs writes the two addresses joined by a single newline,
with no trailing newline (line 45 of the source). -/
def save_tunnel_addrs (local_ip remote_ip : IPv4) : String :=
  ipv4Str local_ip ++ "\n" ++ ipv4Str remote_ip

/-- Python file.readline in text mode: the chunk up to and including the
first newline character, or the whole remaining text when no newline is
present.  Returns the line together with the remaining characters. -/
def splitAtNewline : List Char → List Char × List Char
  | [] => ([], [])
  | c :: cs =>
    if c = '\n' then ([c], cs)
    else
      let p := splitAtNewline cs
      (c :: p.1, p.2)

/-- The load path used inside needs_interface_recreation (lines 31-33):
two readline calls, each fed unstripped to ipaddress.IPv4Address.  The
result is none when either constructor call raises AddressValueError. -/
def readStoredAddrs (contents : String) : Option (IPv4 × IPv4) :=
  let r1 := splitAtNewline contents.data
  let line2 := (splitAtNewline r1.2).1
  match parseIPv4Chars r1.1, parseIPv4Chars line2 with
  | some a, some b => some (a, b)
  | _, _ => none

/-! ## Errors (uncaught Python exceptions) -/

inductive RunError
  /-- requests exception or raise_for_status failure (transport / HTTP). -/
  | transportError
  /-- RuntimeError for a nonzero DNS protocol status (line 19). -/
  | dnsStatus (s : Int)
  /-- KeyError or IndexError taking Answer[0] when no answer records. -/
  | noAnswer
  /-- AddressValueError from a strict IPv4 parse. -/
  | addressValueError
  /-- FileNotFoundError opening the state file (line 31). -/
  | fileNotFound
  /-- CalledProcessError from a subprocess.run with check enabled. -/
  | commandFailed (c : List String)
deriving DecidableEq, Repr

/-! ## The address resolver (src/autosit.py lines 11-22) -/

/-- The structured DoH response: whether raise_for_status passes, the
protocol Status field, and the list of answer record data strings.  The
missing-Answer-key case of the JSON is modelled as the empty list. -/
structure DohResponse where
  httpSuccess : Bool
  status : Int
  answers : List String
deriving DecidableEq, Repr

/-- look_up_ip_addr given the response of the resolution service for the
requested hostname; none models a transport exception from requests. -/
def look_up_ip_addr (resp : Option DohResponse) : Except RunError IPv4 :=
  match resp with
  | none => .error .transportError
  | some r =>
    if r.httpSuccess = false then .error .transportError
    else if r.status ≠ 0 then .error (.dnsStatus r.status)
    else
      match r.answers with
      | [] => .error .noAnswer
      | a :: _ =>
        match parseIPv4Str a with
        | none => .error .addressValueError
        | some ip => .ok ip

/-! ## The drift decision (src/autosit.py lines 24-40)

In the source the function itself probes interface existence with an
ip link show command and opens the state file.  In the embedding those two
external reads are passed in: ifaceExists is the success of the probe
command, stateFile the contents of the state file (none when the file does
not exist, which makes the open call raise FileNotFoundError).
-/

def needs_interface_recreation (local_ip remote_ip : IPv4) (ifaceExists : Bool)
    (stateFile : Option String) : Except RunError Bool :=
  if !ifaceExists then .ok true
  else
    match stateFile with
    | none => .error .fileNotFound
    | some contents =>
      match readStoredAddrs contents with
      | none => .error .addressValueError
      | some (old_local_ip, old_remote_ip) =>
        if local_ip ≠ old_local_ip ∨ remote_ip ≠ old_remote_ip then .ok true
        else .ok false

/-! ## Arguments, events, the external world, and one run of main
(src/autosit.py lines 48-131)

Every subprocess.run call of the program is recorded as an event carrying
its exact argv list; the state-file write of save_tunnel_addrs is recorded
as a save event carrying the path and the written contents.  The external
world supplies the DoH response per hostname, the contents of each file
path (none when absent), and the success of each issued command; the
success of the ip link show probe is exactly interface existence in the
source (line 26).
-/

/-- Packet handling mode per address family (the choices of the ipv4-mode
and ipv6-mode options). -/
inductive Mode
  | forward
  | nat
deriving DecidableEq, Repr

/-- Parsed command line arguments.  addr_cidrs models the with_prefix
option (the list of CIDR strings assigned to the interface); the two route
lists hold the string renderings of the already-validated networks; an
absent option is the empty list. -/
structure Args where
  local_hostname : String
  remote_hostname : String
  tun_name : String
  addr_cidrs : List String
  with_ipv4_route : List String
  with_ipv6_route : List String
  ipv4_mode : Mode
  ipv6_mode : Mode
deriving DecidableEq, Repr

/-- One observable action of a run. -/
inductive Event
  /-- A subprocess.run invocation with this argv list. -/
  | cmd (c : List String)
  /-- The state-store write: path and full new contents. -/
  | save (path : String) (contents : String)
deriving DecidableEq, Repr

/-- The external collaborators of one run. -/
structure World where
  dns : String → Option DohResponse
  files : String → Option String
  cmdOk : List String → Bool

/-! ### The argv lists issued by main, verbatim from the source. -/

def linkShowCmd (tun : String) : List String :=
  ["ip", "link", "show", "dev", tun]

def linkDelCmd (tun : String) : List String :=
  ["ip", "link", "del", tun]

def tunnelAddCmd (tun : String) (local_ip remote_ip : IPv4) : List String :=
  ["ip", "tunnel", "add", tun, "mode", "sit", "remote", ipv4Str remote_ip,
   "local", ipv4Str local_ip, "mode", "any", "ttl", "255"]

def linkUpCmd (tun : String) : List String :=
  ["ip", "link", "set", "dev", tun, "up"]

def addrAddCmds (tun : String) (cidrs : List String) : List (List String) :=
  cidrs.map (fun p => ["ip", "addr", "add", p, "dev", tun])

def routeAddCmds (tun : String) (routes : List String) : List (List String) :=
  routes.map (fun rt => ["ip", "route", "add", rt, "dev", tun])

/-- Lines 111-118 of the source. -/
def ipv4ModeCmds (tun : String) : Mode → List (List String)
  | Mode.nat =>
    [["iptables", "-t", "nat", "-A", "POSTROUTING", "-o", tun, "-j", "MASQUERADE"]]
  | Mode.forward =>
    [["sysctl", "-w", "net.ipv4.ip_forward=1"],
     ["iptables", "-A", "FORWARD", "-i", tun, "-j", "ACCEPT"],
     ["iptables", "-A", "FORWARD", "-o", tun, "-j", "ACCEPT"]]

/-- Lines 119-126 of the source.  Note that the forward branch runs
iptables, not ip6tables, exactly as the source does on lines 125-126. -/
def ipv6ModeCmds (tun : String) : Mode → List (List String)
  | Mode.nat =>
    [["ip6tables", "-t", "nat", "-A", "POSTROUTING", "-o", tun, "-j", "MASQUERADE"]]
  | Mode.forward =>
    [["sysctl", "-w", "net.ipv6.conf.all.forwarding=1"],
     ["iptables", "-A", "FORWARD", "-i", tun, "-j", "ACCEPT"],
     ["iptables", "-A", "FORWARD", "-o", tun, "-j", "ACCEPT"]]

/-- The commands of lines 88-126 that run with check enabled, in program
order: tunnel creation, link up, the address prefixes in the supplied
order, the IPv4 routes, the IPv6 routes, then the two mode blocks. -/
def checkedCmds (args : Args) (local_ip remote_ip : IPv4) : List (List String) :=
  [tunnelAddCmd args.tun_name local_ip remote_ip, linkUpCmd args.tun_name]
    ++ addrAddCmds args.tun_name args.addr_cidrs
    ++ routeAddCmds args.tun_name args.with_ipv4_route
    ++ routeAddCmds args.tun_name args.with_ipv6_route
    ++ ipv4ModeCmds args.tun_name args.ipv4_mode
    ++ ipv6ModeCmds args.tun_name args.ipv6_mode

/-! ### Sequencing of checked commands -/

/-- Run a list of commands with check enabled, in order, accumulating
events.  On the first failing command the CalledProcessError aborts the
rest; the failing invocation itself is still recorded. -/
def chkList (ok : List String → Bool) : List (List String) → List Event →
    Except (List Event × RunError) (List Event)
  | [], st => .ok st
  | c :: cs, st =>
    if ok c then chkList ok cs (st ++ [Event.cmd c])
    else .error (st ++ [Event.cmd c], .commandFailed c)

/-- The commands actually issued from a checked list: the maximal
all-successful prefix, plus the first failing command when one exists. -/
def issuedOf (ok : List String → Bool) : List (List String) → List (List String)
  | [] => []
  | c :: cs => if ok c then c :: issuedOf ok cs else [c]

/-- The event trace of a checked-run outcome, failed or not. -/
def traceOf : Except (List Event × RunError) (List Event) → List Event
  | .ok st => st
  | .error p => p.1

/-! ### One invocation of main -/

/-- The drift decision as main reaches it: the probe result is the success
of the ip link show command, the state file is read at its derived path. -/
def runDecision (args : Args) (w : World) (local_host_ip remote_host_ip : IPv4) :
    Except RunError Bool :=
  needs_interface_recreation local_host_ip remote_host_ip
    (w.cmdOk (linkShowCmd args.tun_name)) (w.files (statePath args.tun_name))

/-- The reconciliation branch of main (lines 79-126): save the new record,
attempt the tolerated teardown, then run every checked command in order. -/
def runReconcile (args : Args) (w : World) (local_host_ip remote_host_ip : IPv4) :
    List Event × Except RunError Nat :=
  let st1 := [Event.cmd (linkShowCmd args.tun_name),
              Event.save (statePath args.tun_name)
                (save_tunnel_addrs local_host_ip remote_host_ip),
              Event.cmd (linkDelCmd args.tun_name)]
  match chkList w.cmdOk (checkedCmds args local_host_ip remote_host_ip) st1 with
  | .ok st => (st, .ok 0)
  | .error p => (p.1, .error p.2)

/-- One invocation of main: resolve local, resolve remote, decide, then
either reconcile or report healthy.  The result is the full event trace
together with the terminal outcome (exit code 0, or the uncaught error). -/
def mainRun (args : Args) (w : World) : List Event × Except RunError Nat :=
  match look_up_ip_addr (w.dns args.local_hostname) with
  | .error e => ([], .error e)
  | .ok local_host_ip =>
    match look_up_ip_addr (w.dns args.remote_hostname) with
    | .error e => ([], .error e)
    | .ok remote_host_ip =>
      match runDecision args w local_host_ip remote_host_ip with
      | .error e => ([Event.cmd (linkShowCmd args.tun_name)], .error e)
      | .ok true => runReconcile args w local_host_ip remote_host_ip
      | .ok false => ([Event.cmd (linkShowCmd args.tun_name)], .ok 0)

/-- The contents of a file path after a run: the last save event to that
path wins, otherwise the prior contents from the world. -/
def finalFiles (w : World) (tr : List Event) : String → Option String :=
  fun path =>
    tr.foldl (fun acc e =>
      match e with
      | Event.save p s => if p = path then some s else acc
      | _ => acc) (w.files path)

/-! ## Helper lemmas about checked-command sequencing -/

theorem chkList_trace (ok : List String → Bool) :
    ∀ (cs : List (List String)) (st : List Event),
      traceOf (chkList ok cs st) = st ++ (issuedOf ok cs).map Event.cmd := by
  intro cs
  induction cs with
  | nil => intro st; simp [chkList, issuedOf, traceOf]
  | cons c cs ih =>
    intro st
    by_cases h : ok c = true
    · simp only [chkList, h, if_true, issuedOf, List.map_cons]
      rw [ih]
      simp
    · simp only [Bool.not_eq_true] at h
      simp [chkList, issuedOf, h, traceOf]

theorem chkList_ok_of_all (ok : List String → Bool) :
    ∀ (cs : List (List String)) (st : List Event),
      (∀ c ∈ cs, ok c = true) →
      chkList ok cs st = .ok (st ++ cs.map Event.cmd) := by
  intro cs
  induction cs with
  | nil => intro st _; simp [chkList]
  | cons c cs ih =>
    intro st hall
    have hc : ok c = true := hall c (by simp)
    have hrest : ∀ d ∈ cs, ok d = true := fun d hd => hall d (by simp [hd])
    simp [chkList, hc, ih _ hrest]

theorem chkList_all_of_ok (ok : List String → Bool) :
    ∀ (cs : List (List String)) (st st2 : List Event),
      chkList ok cs st = .ok st2 → ∀ c ∈ cs, ok c = true := by
  intro cs
  induction cs with
  | nil => intro st st2 _ c hc; cases hc
  | cons c cs ih =>
    intro st st2 hok d hd
    by_cases h : ok c = true
    · simp only [chkList, h, if_true] at hok
      rcases List.mem_cons.mp hd with h1 | h1
      · rw [h1]; exact h
      · exact ih _ _ hok d h1
    · simp only [Bool.not_eq_true] at h
      simp [chkList, h] at hok

/-- The trace and outcome of a run whose decision is reconcile: the probe,
the state save, the tolerated teardown, then exactly the issued prefix of
the checked commands; the run succeeds exactly when every checked command
succeeds. -/
theorem mainRun_reconcile_spec (args : Args) (w : World) (l r : IPv4)
    (hl : look_up_ip_addr (w.dns args.local_hostname) = Except.ok l)
    (hr : look_up_ip_addr (w.dns args.remote_hostname) = Except.ok r)
    (hd : runDecision args w l r = Except.ok true) :
    (mainRun args w).1 =
      [Event.cmd (linkShowCmd args.tun_name),
       Event.save (statePath args.tun_name) (save_tunnel_addrs l r),
       Event.cmd (linkDelCmd args.tun_name)]
      ++ (issuedOf w.cmdOk (checkedCmds args l r)).map Event.cmd
    ∧ ((mainRun args w).2 = Except.ok 0 ↔ ∀ c ∈ checkedCmds args l r, w.cmdOk c = true) := by
  have hmain : mainRun args w = runReconcile args w l r := by
    simp only [mainRun, hl, hr, hd]
  have htr := chkList_trace w.cmdOk (checkedCmds args l r)
      [Event.cmd (linkShowCmd args.tun_name),
       Event.save (statePath args.tun_name) (save_tunnel_addrs l r),
       Event.cmd (linkDelCmd args.tun_name)]
  rw [hmain]
  cases hchk : chkList w.cmdOk (checkedCmds args l r)
      [Event.cmd (linkShowCmd args.tun_name),
       Event.save (statePath args.tun_name) (save_tunnel_addrs l r),
       Event.cmd (linkDelCmd args.tun_name)] with
  | ok st =>
    rw [hchk] at htr
    constructor
    · simp only [runReconcile, hchk]
      simpa [traceOf] using htr
    · simp only [runReconcile, hchk]
      exact iff_of_true trivial (fun c hc => chkList_all_of_ok w.cmdOk _ _ _ hchk c hc)
  | error p =>
    rw [hchk] at htr
    constructor
    · simp only [runReconcile, hchk]
      simpa [traceOf] using htr
    · simp only [runReconcile, hchk]
      constructor
      · intro hcontr
        exact absurd hcontr (by simp)
      · intro hall
        rw [chkList_ok_of_all w.cmdOk _ _ hall] at hchk
        simp at hchk

/-! ## Concrete scenario inputs shared by the concrete theorems -/

def ip_a : IPv4 := ⟨10, 0, 0, 1⟩

def ip_b : IPv4 := ⟨10, 0, 0, 2⟩

def host_a : String := "local.example.com"

def host_b : String := "remote.example.com"

/-- A resolution service answering 10.0.0.1 for the local hostname and
10.0.0.2 for the remote hostname. -/
def dns0 : String → Option DohResponse := fun h =>
  if h = host_a then some { httpSuccess := true, status := 0, answers := ["10.0.0.1"] }
  else if h = host_b then some { httpSuccess := true, status := 0, answers := ["10.0.0.2"] }
  else none

/-- Arguments: default tunnel name, one prefix, one IPv4 route, forward
mode for both families. -/
def args0 : Args :=
  { local_hostname := host_a, remote_hostname := host_b, tun_name := "autosit",
    addr_cidrs := ["192.168.5.1/30"], with_ipv4_route := ["10.5.0.0/16"],
    with_ipv6_route := [], ipv4_mode := Mode.forward, ipv6_mode := Mode.forward }

/-- First run: the interface does not exist (the probe fails), no state
file exists, and every other command succeeds. -/
def w_run1 : World :=
  { dns := dns0, files := fun _ => none,
    cmdOk := fun c => decide (c ≠ linkShowCmd "autosit") }

/-- Second run: same DNS answers, the interface now exists (every command,
including the probe, succeeds), and the state file holds exactly what the
first run wrote. -/
def w_run2 : World :=
  { dns := dns0, files := finalFiles w_run1 (mainRun args0 w_run1).1,
    cmdOk := fun _ => true }

/-! ## The claims -/

/-- C1: the claim states that a record written by save_tunnel_addrs is
always read back by the load path as the same two addresses.  It is false
on the code: save writes the two addresses joined by a newline, readline
keeps the trailing newline on the first line, and the strict IPv4
constructor rejects it, so the stored record never parses; the drift
check raises AddressValueError instead of recovering the pair.  This
theorem evaluates the code at the failing input (10.0.0.1, 10.0.0.2),
tunnel name autosit. -/
theorem C1_roundtrip_fails :
    save_tunnel_addrs ip_a ip_b = "10.0.0.1\n10.0.0.2" ∧
    readStoredAddrs (save_tunnel_addrs ip_a ip_b) = none ∧
    needs_interface_recreation ip_a ip_b true (some (save_tunnel_addrs ip_a ip_b))
      = Except.error RunError.addressValueError := by
  decide

/-- C2: the claim states that a second run with an unchanged DNS answer,
an existing interface, and the record written by the previous successful
reconciliation decides healthy-noop and terminates successfully.  It is
false on the code: the first run reconciles and writes the record, but the
second run fails to parse that record back (trailing newline) and dies
with an uncaught AddressValueError after issuing only the read-only probe;
it does terminate without invoking the configurator, but not successfully
and not via the healthy-noop decision. -/
theorem C2_second_run_crashes :
    (mainRun args0 w_run1).2 = Except.ok 0 ∧
    finalFiles w_run1 (mainRun args0 w_run1).1 (statePath "autosit")
      = some "10.0.0.1\n10.0.0.2" ∧
    mainRun args0 w_run2
      = ([Event.cmd (linkShowCmd "autosit")], Except.error RunError.addressValueError) := by
  decide

/-- Recognize an ip6tables invocation in the trace. -/
def isIp6tablesEvent : Event → Bool
  | Event.cmd (h :: _) => h = "ip6tables"
  | _ => false

/-- C4: the claim states that when the IPv6 mode is forward the run
enables the IPv6 forwarding toggle and installs IPv6-specific filter rules
(not IPv4 ones).  The first half holds, but the installed filter rules are
iptables (IPv4) invocations, copied from the IPv4 branch: in a full
reconciling run with both modes forward, no ip6tables command appears in
the whole trace.  The IPv4 conjunct of the claim does hold, as the first
part of the theorem shows. -/
theorem C4_ipv6_forward_installs_ipv4_rules :
    ipv4ModeCmds "autosit" Mode.forward =
      [["sysctl", "-w", "net.ipv4.ip_forward=1"],
       ["iptables", "-A", "FORWARD", "-i", "autosit", "-j", "ACCEPT"],
       ["iptables", "-A", "FORWARD", "-o", "autosit", "-j", "ACCEPT"]] ∧
    ipv6ModeCmds "autosit" Mode.forward =
      [["sysctl", "-w", "net.ipv6.conf.all.forwarding=1"],
       ["iptables", "-A", "FORWARD", "-i", "autosit", "-j", "ACCEPT"],
       ["iptables", "-A", "FORWARD", "-o", "autosit", "-j", "ACCEPT"]] ∧
    Event.cmd ["sysctl", "-w", "net.ipv6.conf.all.forwarding=1"] ∈ (mainRun args0 w_run1).1 ∧
    (mainRun args0 w_run1).1.filter isIp6tablesEvent = [] := by
  decide

/-- C6: the claim states the three-condition short-circuit decision:
absence of the interface forces reconcile without reading the store; with
the interface present a differing loaded record forces reconcile and a
matching one yields healthy-noop.  The first condition is honored (first
conjunct: with the probe failing the decision is reconcile whatever the
state file holds, so the store is not consulted), but the healthy branch
is dead code: at the failing input where the interface exists and the
stored record matches the fresh pair exactly, the decision raises
AddressValueError instead of returning healthy-noop, because the load
path cannot parse its own record format. -/
theorem C6_shortcircuit_real_but_healthy_branch_dead :
    (∀ (l r : IPv4) (stateFile : Option String),
      needs_interface_recreation l r false stateFile = Except.ok true) ∧
    needs_interface_recreation ip_a ip_b true (some "10.0.0.1\n10.0.0.2")
      = Except.error RunError.addressValueError := by
  exact ⟨fun l r stateFile => rfl, by decide⟩

/-- A world in which the interface exists (all commands succeed) but no
state file exists. -/
def w_nofile : World :=
  { dns := dns0, files := fun _ => none, cmdOk := fun _ => true }

/-- A world in which the interface exists and the state file holds a first
line that parses and a second line that does not (the spec scenario of an
unparsable second line). -/
def w_corrupt : World :=
  { dns := dns0,
    files := fun p => if p = statePath "autosit" then some "10.0.0.1\nbananas" else none,
    cmdOk := fun _ => true }

/-- C3 counterexample: the claim states that with the interface present a
missing or corrupt state file is folded into the reconcile decision and
the run proceeds to reconfigure.  At the concrete input where the state
file holds an unparsable second line, the run instead terminates with an
uncaught AddressValueError immediately after the read-only probe: no save
and no configuration command is issued, so the error is escalated to a
fatal top-level failure rather than folded into reconciliation. -/
theorem C3_corrupt_state_is_fatal_counterexample :
    mainRun args0 w_corrupt
      = ([Event.cmd (linkShowCmd "autosit")], Except.error RunError.addressValueError) ∧
    mainRun args0 w_nofile
      = ([Event.cmd (linkShowCmd "autosit")], Except.error RunError.fileNotFound) := by
  decide

/-- C3 amended: when the interface exists but the state file is missing or
its contents do not parse as two IPv4 addresses, the resulting exception
(FileNotFoundError, or AddressValueError) propagates and terminates the
run as a fatal top-level error; the run does not fold the condition into a
reconcile decision and issues nothing beyond the read-only probe. -/
theorem C3_missing_or_corrupt_state_fatal (args : Args) (w : World) (l r : IPv4)
    (hl : look_up_ip_addr (w.dns args.local_hostname) = Except.ok l)
    (hr : look_up_ip_addr (w.dns args.remote_hostname) = Except.ok r)
    (hiface : w.cmdOk (linkShowCmd args.tun_name) = true)
    (hfile : w.files (statePath args.tun_name) = none ∨
      ∃ s, w.files (statePath args.tun_name) = some s ∧ readStoredAddrs s = none) :
    ∃ e, mainRun args w = ([Event.cmd (linkShowCmd args.tun_name)], Except.error e) ∧
      (e = RunError.fileNotFound ∨ e = RunError.addressValueError) := by
  have hd : ∃ e, runDecision args w l r = Except.error e ∧
      (e = RunError.fileNotFound ∨ e = RunError.addressValueError) := by
    rcases hfile with h | ⟨s, hs, hparse⟩
    · refine ⟨RunError.fileNotFound, ?_, Or.inl rfl⟩
      unfold runDecision needs_interface_recreation
      rw [hiface, h]
      simp
    · refine ⟨RunError.addressValueError, ?_, Or.inr rfl⟩
      unfold runDecision needs_interface_recreation
      rw [hiface, hs]
      simp [hparse]
  obtain ⟨e, he, hkind⟩ := hd
  refine ⟨e, ?_, hkind⟩
  simp only [mainRun, hl, hr, he]

/-- C3 witness: the amended statement applied at the concrete no-state-file
world. -/
theorem C3_missing_or_corrupt_state_fatal_witness :
    w_nofile.cmdOk (linkShowCmd "autosit") = true ∧
    w_nofile.files (statePath "autosit") = none ∧
    ∃ e, mainRun args0 w_nofile = ([Event.cmd (linkShowCmd "autosit")], Except.error e) ∧
      (e = RunError.fileNotFound ∨ e = RunError.addressValueError) :=
  ⟨rfl, rfl,
    C3_missing_or_corrupt_state_fatal args0 w_nofile ip_a ip_b
      (by decide) (by decide) rfl (Or.inl rfl)⟩

/-- The OS-mutating commands named by the state-precedes-mutation claim:
interface delete, tunnel create, link up, address add, route add, and
rule or forwarding installation.  The interface existence probe (ip link
show) is a read and is not among them. -/
def specMutatingCmd (c : List String) : Bool :=
  (c.take 3 = ["ip", "link", "del"]) || (c.take 3 = ["ip", "tunnel", "add"]) ||
  (c.take 3 = ["ip", "link", "set"]) || (c.take 3 = ["ip", "addr", "add"]) ||
  (c.take 3 = ["ip", "route", "add"]) || (c.head? = some "iptables") ||
  (c.head? = some "ip6tables") || (c.head? = some "sysctl")

/-- C5: in every run that decides reconciliation is required, the new
record (both freshly resolved addresses together, local line then remote
line) is written to the state store before any OS-mutating command: the
only event preceding the save is the read-only existence probe, which is
not a mutating command. -/
theorem C5_state_precedes_mutation (args : Args) (w : World) (l r : IPv4)
    (hl : look_up_ip_addr (w.dns args.local_hostname) = Except.ok l)
    (hr : look_up_ip_addr (w.dns args.remote_hostname) = Except.ok r)
    (hd : runDecision args w l r = Except.ok true) :
    ∃ rest, (mainRun args w).1 =
      Event.cmd (linkShowCmd args.tun_name)
        :: Event.save (statePath args.tun_name) (save_tunnel_addrs l r) :: rest ∧
      specMutatingCmd (linkShowCmd args.tun_name) = false := by
  refine ⟨Event.cmd (linkDelCmd args.tun_name)
    :: (issuedOf w.cmdOk (checkedCmds args l r)).map Event.cmd, ?_, rfl⟩
  rw [(mainRun_reconcile_spec args w l r hl hr hd).1]
  rfl

/-- C5 witness: the theorem applied at the concrete first-run world. -/
theorem C5_state_precedes_mutation_witness :
    runDecision args0 w_run1 ip_a ip_b = Except.ok true ∧
    ∃ rest, (mainRun args0 w_run1).1 =
      Event.cmd (linkShowCmd "autosit")
        :: Event.save (statePath "autosit") (save_tunnel_addrs ip_a ip_b) :: rest ∧
      specMutatingCmd (linkShowCmd "autosit") = false :=
  ⟨by decide,
    C5_state_precedes_mutation args0 w_run1 ip_a ip_b (by decide) (by decide) (by decide)⟩

/-- When every command succeeds, the issued commands are exactly the
supplied ones, in the supplied order. -/
theorem issuedOf_all (ok : List String → Bool) :
    ∀ cs, (∀ c ∈ cs, ok c = true) → issuedOf ok cs = cs := by
  intro cs
  induction cs with
  | nil => intro _; rfl
  | cons c cs ih =>
    intro hall
    have hc : ok c = true := hall c (by simp)
    simp [issuedOf, hc, ih (fun d hd => hall d (by simp [hd]))]

/-- The head of a checked list is always issued, whether it succeeds or
not. -/
theorem mem_issuedOf_head (ok : List String → Bool) (c : List String)
    (cs : List (List String)) : c ∈ issuedOf ok (c :: cs) := by
  by_cases h : ok c = true <;> simp [issuedOf, h]

/-- C7: under a reconcile decision the full trace is the probe, the state
save, the teardown attempt, followed by exactly the issued prefix of the
checked commands: tunnel creation, link up, every address prefix in the
caller-supplied order, every IPv4 route in order, every IPv6 route in
order, then the per-family mode commands; a failure anywhere in the
checked commands halts everything after it (issuedOf keeps the maximal
successful prefix plus the failing command).  The run exits successfully
exactly when every checked command succeeds, and when they all succeed
the trace lists every supplied prefix and route in the exact caller order. -/
theorem C7_order_preservation_and_halt (args : Args) (w : World) (l r : IPv4)
    (hl : look_up_ip_addr (w.dns args.local_hostname) = Except.ok l)
    (hr : look_up_ip_addr (w.dns args.remote_hostname) = Except.ok r)
    (hd : runDecision args w l r = Except.ok true) :
    (mainRun args w).1 =
      [Event.cmd (linkShowCmd args.tun_name),
       Event.save (statePath args.tun_name) (save_tunnel_addrs l r),
       Event.cmd (linkDelCmd args.tun_name)]
      ++ (issuedOf w.cmdOk
          ([tunnelAddCmd args.tun_name l r, linkUpCmd args.tun_name]
            ++ addrAddCmds args.tun_name args.addr_cidrs
            ++ routeAddCmds args.tun_name args.with_ipv4_route
            ++ routeAddCmds args.tun_name args.with_ipv6_route
            ++ ipv4ModeCmds args.tun_name args.ipv4_mode
            ++ ipv6ModeCmds args.tun_name args.ipv6_mode)).map Event.cmd ∧
    ((mainRun args w).2 = Except.ok 0 ↔ ∀ c ∈ checkedCmds args l r, w.cmdOk c = true) ∧
    ((∀ c ∈ checkedCmds args l r, w.cmdOk c = true) →
      (mainRun args w).1 =
        [Event.cmd (linkShowCmd args.tun_name),
         Event.save (statePath args.tun_name) (save_tunnel_addrs l r),
         Event.cmd (linkDelCmd args.tun_name)]
        ++ (checkedCmds args l r).map Event.cmd) := by
  have h := mainRun_reconcile_spec args w l r hl hr hd
  refine ⟨h.1, h.2, fun hall => ?_⟩
  rw [h.1, issuedOf_all w.cmdOk _ hall]

/-- C7 witness: the theorem applied at the concrete first-run world, in
which every checked command succeeds. -/
theorem C7_order_preservation_and_halt_witness :
    runDecision args0 w_run1 ip_a ip_b = Except.ok true ∧
    (mainRun args0 w_run1).1 =
      [Event.cmd (linkShowCmd "autosit"),
       Event.save (statePath "autosit") (save_tunnel_addrs ip_a ip_b),
       Event.cmd (linkDelCmd "autosit")]
      ++ (issuedOf w_run1.cmdOk
          ([tunnelAddCmd "autosit" ip_a ip_b, linkUpCmd "autosit"]
            ++ addrAddCmds "autosit" args0.addr_cidrs
            ++ routeAddCmds "autosit" args0.with_ipv4_route
            ++ routeAddCmds "autosit" args0.with_ipv6_route
            ++ ipv4ModeCmds "autosit" args0.ipv4_mode
            ++ ipv6ModeCmds "autosit" args0.ipv6_mode)).map Event.cmd ∧
    ((mainRun args0 w_run1).2 = Except.ok 0 ↔
      ∀ c ∈ checkedCmds args0 ip_a ip_b, w_run1.cmdOk c = true) :=
  ⟨by decide,
    (C7_order_preservation_and_halt args0 w_run1 ip_a ip_b
      (by decide) (by decide) (by decide)).1,
    (C7_order_preservation_and_halt args0 w_run1 ip_a ip_b
      (by decide) (by decide) (by decide)).2.1⟩

/-- C9: during a reconciliation run whose teardown command fails, the run
still proceeds to interface creation (the create command is in the trace);
if the create command fails, the run stops there, with no later command
attempted and the CalledProcessError as its terminal outcome; if create
succeeds but link up fails, the run stops right after link up in the same
way.  No compensating command of any kind follows a fatal failure. -/
theorem C9_teardown_tolerated_create_and_up_fatal (args : Args) (w : World) (l r : IPv4)
    (hl : look_up_ip_addr (w.dns args.local_hostname) = Except.ok l)
    (hr : look_up_ip_addr (w.dns args.remote_hostname) = Except.ok r)
    (hd : runDecision args w l r = Except.ok true)
    (hdel : w.cmdOk (linkDelCmd args.tun_name) = false) :
    Event.cmd (tunnelAddCmd args.tun_name l r) ∈ (mainRun args w).1 ∧
    (w.cmdOk (tunnelAddCmd args.tun_name l r) = false →
      (mainRun args w).1 =
        [Event.cmd (linkShowCmd args.tun_name),
         Event.save (statePath args.tun_name) (save_tunnel_addrs l r),
         Event.cmd (linkDelCmd args.tun_name),
         Event.cmd (tunnelAddCmd args.tun_name l r)] ∧
      (mainRun args w).2
        = Except.error (RunError.commandFailed (tunnelAddCmd args.tun_name l r))) ∧
    (w.cmdOk (tunnelAddCmd args.tun_name l r) = true →
      w.cmdOk (linkUpCmd args.tun_name) = false →
      (mainRun args w).1 =
        [Event.cmd (linkShowCmd args.tun_name),
         Event.save (statePath args.tun_name) (save_tunnel_addrs l r),
         Event.cmd (linkDelCmd args.tun_name),
         Event.cmd (tunnelAddCmd args.tun_name l r),
         Event.cmd (linkUpCmd args.tun_name)] ∧
      (mainRun args w).2
        = Except.error (RunError.commandFailed (linkUpCmd args.tun_name))) := by
  have hmain : mainRun args w = runReconcile args w l r := by
    simp only [mainRun, hl, hr, hd]
  have hcc : checkedCmds args l r
      = tunnelAddCmd args.tun_name l r :: linkUpCmd args.tun_name ::
        (addrAddCmds args.tun_name args.addr_cidrs
          ++ routeAddCmds args.tun_name args.with_ipv4_route
          ++ routeAddCmds args.tun_name args.with_ipv6_route
          ++ ipv4ModeCmds args.tun_name args.ipv4_mode
          ++ ipv6ModeCmds args.tun_name args.ipv6_mode) := rfl
  refine ⟨?_, ?_, ?_⟩
  · rw [(mainRun_reconcile_spec args w l r hl hr hd).1]
    refine List.mem_append_right _ (List.mem_map_of_mem Event.cmd ?_)
    rw [hcc]
    exact mem_issuedOf_head _ _ _
  · intro hcr
    rw [hmain]
    unfold runReconcile
    rw [hcc]
    simp [chkList, hcr, traceOf]
  · intro hcr hup
    rw [hmain]
    unfold runReconcile
    rw [hcc]
    simp [chkList, hcr, hup, traceOf]

/-- A reconcile-deciding world in which the teardown and the create
command both fail. -/
def w_fail9 : World :=
  { dns := dns0, files := fun _ => none,
    cmdOk := fun c => decide (c ≠ linkShowCmd "autosit" ∧ c ≠ linkDelCmd "autosit"
      ∧ c ≠ tunnelAddCmd "autosit" ip_a ip_b) }

/-- C9 witness: the theorem applied at a concrete world whose teardown and
create commands fail. -/
theorem C9_teardown_tolerated_create_and_up_fatal_witness :
    w_fail9.cmdOk (linkDelCmd "autosit") = false ∧
    w_fail9.cmdOk (tunnelAddCmd "autosit" ip_a ip_b) = false ∧
    Event.cmd (tunnelAddCmd "autosit" ip_a ip_b) ∈ (mainRun args0 w_fail9).1 ∧
    (mainRun args0 w_fail9).1 =
      [Event.cmd (linkShowCmd "autosit"),
       Event.save (statePath "autosit") (save_tunnel_addrs ip_a ip_b),
       Event.cmd (linkDelCmd "autosit"),
       Event.cmd (tunnelAddCmd "autosit" ip_a ip_b)] ∧
    (mainRun args0 w_fail9).2
      = Except.error (RunError.commandFailed (tunnelAddCmd "autosit" ip_a ip_b)) := by
  have h := C9_teardown_tolerated_create_and_up_fatal args0 w_fail9 ip_a ip_b
    (by decide) (by decide) (by decide) (by decide)
  exact ⟨by decide, by decide, h.1, (h.2.1 (by decide)).1, (h.2.1 (by decide)).2⟩

/-- C8: the resolver fails when the transport call fails, when the service
reports a nonzero internal status, when the answer set is empty, and when
the first answer does not parse as a strict dotted-quad IPv4 address; on
success it returns exactly the first answer record parsed; and any
resolution failure (of the local or the remote lookup) aborts the run with
an empty trace: no state-store access and no OS command of any kind. -/
theorem C8_resolver_contract (args : Args) (w : World) (r : DohResponse) :
    (look_up_ip_addr none = Except.error RunError.transportError) ∧
    (r.httpSuccess = false →
      look_up_ip_addr (some r) = Except.error RunError.transportError) ∧
    (r.httpSuccess = true → r.status ≠ 0 →
      look_up_ip_addr (some r) = Except.error (RunError.dnsStatus r.status)) ∧
    (r.httpSuccess = true → r.status = 0 → r.answers = [] →
      look_up_ip_addr (some r) = Except.error RunError.noAnswer) ∧
    (∀ a rest, r.httpSuccess = true → r.status = 0 → r.answers = a :: rest →
      parseIPv4Str a = none →
      look_up_ip_addr (some r) = Except.error RunError.addressValueError) ∧
    (∀ a rest ip, r.httpSuccess = true → r.status = 0 → r.answers = a :: rest →
      parseIPv4Str a = some ip →
      look_up_ip_addr (some r) = Except.ok ip) ∧
    (∀ e, look_up_ip_addr (w.dns args.local_hostname) = Except.error e →
      mainRun args w = ([], Except.error e)) ∧
    (∀ l e, look_up_ip_addr (w.dns args.local_hostname) = Except.ok l →
      look_up_ip_addr (w.dns args.remote_hostname) = Except.error e →
      mainRun args w = ([], Except.error e)) := by
  refine ⟨rfl, ?_, ?_, ?_, ?_, ?_, ?_, ?_⟩
  · intro h
    simp [look_up_ip_addr, h]
  · intro h hs
    simp [look_up_ip_addr, h, hs]
  · intro h hs ha
    simp [look_up_ip_addr, h, hs, ha]
  · intro a rest h hs ha hp
    simp [look_up_ip_addr, h, hs, ha, hp]
  · intro a rest ip h hs ha hp
    simp [look_up_ip_addr, h, hs, ha, hp]
  · intro e he
    simp only [mainRun, he]
  · intro l e hlk he
    simp only [mainRun, hlk, he]

/-- The status-2 (server failure) response of the spec scenario. -/
def respStatus2 : DohResponse :=
  { httpSuccess := true, status := 2, answers := [] }

/-- A world whose resolution service answers every query with status 2. -/
def w_status2 : World :=
  { dns := fun _ => some respStatus2, files := fun _ => none, cmdOk := fun _ => true }

/-- C8 witness: the spec scenario of a status-2 server failure, which
aborts the run before any state or OS interaction. -/
theorem C8_resolver_contract_witness :
    look_up_ip_addr (some respStatus2) = Except.error (RunError.dnsStatus 2) ∧
    mainRun args0 w_status2 = ([], Except.error (RunError.dnsStatus 2)) := by
  constructor
  · exact (C8_resolver_contract args0 w_status2 respStatus2).2.2.1 rfl (by decide)
  · exact (C8_resolver_contract args0 w_status2 respStatus2).2.2.2.2.2.2.1
      (RunError.dnsStatus 2) (by decide)

/-- C10: the run is a function of the arguments and of the collaborator
responses it actually consults: two worlds that agree on the DNS answer
for the two requested hostnames, on the contents of the state file at the
path derived from the tunnel name, and on the success of each command,
produce the same event trace (hence the same OS command sequence), the
same terminal outcome, and the same final state-file contents. -/
theorem C10_deterministic (args : Args) (w1 w2 : World)
    (hdl : w1.dns args.local_hostname = w2.dns args.local_hostname)
    (hdr : w1.dns args.remote_hostname = w2.dns args.remote_hostname)
    (hf : w1.files (statePath args.tun_name) = w2.files (statePath args.tun_name))
    (hc : w1.cmdOk = w2.cmdOk) :
    mainRun args w1 = mainRun args w2 ∧
    finalFiles w1 (mainRun args w1).1 (statePath args.tun_name)
      = finalFiles w2 (mainRun args w2).1 (statePath args.tun_name) := by
  have hm : mainRun args w1 = mainRun args w2 := by
    unfold mainRun runDecision runReconcile
    rw [hdl, hdr, hf, hc]
  refine ⟨hm, ?_⟩
  unfold finalFiles
  rw [hm, hf]

/-- A world identical to w_nofile except for an unrelated file path. -/
def w_altB : World :=
  { dns := dns0, files := fun p => if p = "/tmp/unrelated" then some "junk" else none,
    cmdOk := fun _ => true }

/-- C10 witness: two concrete worlds differing only in a file the run
never reads produce identical runs and identical final state files. -/
theorem C10_deterministic_witness :
    w_nofile.files (statePath "autosit") = w_altB.files (statePath "autosit") ∧
    mainRun args0 w_nofile = mainRun args0 w_altB ∧
    finalFiles w_nofile (mainRun args0 w_nofile).1 (statePath "autosit")
      = finalFiles w_altB (mainRun args0 w_altB).1 (statePath "autosit") := by
  have h := C10_deterministic args0 w_nofile w_altB rfl rfl (by decide) rfl
  exact ⟨by decide, h.1, h.2⟩

end Autosit
